import Mathlib

-- Verification of the goose schema-migration engine.
--
-- The statement splitter and migration executor are embedded from the Go
-- sources (migration_sql.go); the dialect layer from dialect.go, and the
-- administrative CreateDB/DropDB commands from create_db.go / drop_db.go.
-- Scanned script lines are modelled as lists of characters, mirroring the
-- byte slices handed out by bufio.Scanner.

-- A scanned line of a migration script (Go: a byte slice).
abbrev Line := List Char

-- Go unicode.IsSpace, as used by bufio.ScanWords and bytes.TrimSpace.
def isSpace (c : Char) : Bool := c.isWhitespace

-- bufio.ScanWords: maximal runs of non-whitespace characters, in order.
def scanWordsAux : List Char → List Char → List Line
  | [], acc => if acc = [] then [] else [acc.reverse]
  | c :: cs, acc =>
    if isSpace c then
      if acc = [] then scanWordsAux cs [] else acc.reverse :: scanWordsAux cs []
    else
      scanWordsAux cs (c :: acc)

def scanWords (line : Line) : List Line := scanWordsAux line []

-- The double-dash comment marker tested with strings.HasPrefix(word, "--").
def commentMarker : Line := ['-', '-']

-- The scanning loop of endsWithSemicolon: prev starts empty, each word that
-- does not start with "--" replaces prev, and the first word starting with
-- "--" stops the scan.
def lastWordBefore : List Line → Line → Line
  | [], prev => prev
  | w :: ws, prev =>
    if commentMarker.isPrefixOf w then prev else lastWordBefore ws w

-- endsWithSemicolon (migration_sql.go): does the line have a
-- statement-ending semicolon, ignoring a trailing "--" comment?
def endsWithSemicolon (line : Line) : Bool :=
  (lastWordBefore (scanWords line) []).getLast? == some ';'

-- bytes.TrimSpace.
def trimL (l : Line) : Line :=
  ((l.dropWhile isSpace).reverse.dropWhile isSpace).reverse

-- The directive marker sqlCmdPrefix = "-- +goose " from migration_sql.go.
def sqlCmdMarker : Line := ['-', '-', ' ', '+', 'g', 'o', 'o', 's', 'e', ' ']

-- The mutable locals of getSQLStatements, as one record threaded line by line.
structure SplitState where
  upSections : Nat
  downSections : Nat
  statementEnded : Bool
  ignoreSemicolons : Bool
  directionIsActive : Bool
  tx : Bool
  buf : Line
  stmts : List Line
  deriving DecidableEq

def initState : SplitState :=
  { upSections := 0, downSections := 0, statementEnded := false,
    ignoreSemicolons := false, directionIsActive := false, tx := true,
    buf := [], stmts := [] }

def upCmd : Line := ['U', 'p']
def downCmd : Line := ['D', 'o', 'w', 'n']
def stmtBeginCmd : Line := "StatementBegin".data
def stmtEndCmd : Line := "StatementEnd".data
def noTxCmd : Line := "NO TRANSACTION".data

-- The switch over the trimmed directive text in getSQLStatements.
-- Direction is a Bool exactly as in Go: true is Up, false is Down.
def applyCmd (direction : Bool) (s : SplitState) (cmd : Line) : SplitState :=
  if cmd = upCmd then
    { s with directionIsActive := direction, upSections := s.upSections + 1 }
  else if cmd = downCmd then
    { s with directionIsActive := !direction, downSections := s.downSections + 1 }
  else if cmd = stmtBeginCmd then
    (if s.directionIsActive then { s with ignoreSemicolons := true } else s)
  else if cmd = stmtEndCmd then
    (if s.directionIsActive then
       { s with statementEnded := s.ignoreSemicolons, ignoreSemicolons := false }
     else s)
  else if cmd = noTxCmd then
    { s with tx := false }
  else s

-- The goose-specific command handling at the top of the scan loop.  Note the
-- Go loop has no continue after the switch: a directive line falls through to
-- the buffering code below.
def applyDirectives (direction : Bool) (s : SplitState) (line : Line) : SplitState :=
  if sqlCmdMarker.isPrefixOf line then
    applyCmd direction s (trimL (line.drop sqlCmdMarker.length))
  else s

-- The rest of the scan loop body: skip the line unless the direction is
-- active, otherwise append it (plus newline) to the buffer, and flush the
-- buffer as one statement when a semicolon terminates it outside an explicit
-- block, or when StatementEnd just closed a block.
def emitStage (s : SplitState) (line : Line) : SplitState :=
  if !s.directionIsActive then s
  else if (!s.ignoreSemicolons && endsWithSemicolon line) || s.statementEnded then
    { s with statementEnded := false,
             stmts := s.stmts ++ [s.buf ++ line ++ ['\n']], buf := [] }
  else { s with buf := s.buf ++ line ++ ['\n'] }

def processLine (direction : Bool) (s : SplitState) (line : Line) : SplitState :=
  emitStage (applyDirectives direction s line) line

def processLines (direction : Bool) (s : SplitState) (script : List Line) : SplitState :=
  script.foldl (processLine direction) s

-- getSQLStatements (migration_sql.go).  The trailing-buffer and unmatched
-- StatementBegin diagnostics are warnings only; the missing-annotations check
-- is log.Fatalf, i.e. the process dies and nothing is returned, which we
-- model as none.
def getSQLStatements (script : List Line) (direction : Bool) :
    Option (List Line × Bool) :=
  let s := processLines direction initState script
  if s.upSections = 0 ∧ s.downSections = 0 then none
  else some (s.stmts, s.tx)

-- bufio.ScanLines applied to a whole script: split on newline bytes, drop a
-- final empty token, strip one trailing carriage return per line.
def dropCR (l : Line) : Line :=
  if l.getLast? = some '\r' then l.dropLast else l

def goLinesAux : List Char → List Char → List Line
  | [], acc => if acc = [] then [] else [dropCR acc.reverse]
  | c :: cs, acc =>
    if c = '\n' then dropCR acc.reverse :: goLinesAux cs []
    else goLinesAux cs (c :: acc)

def goLines (s : String) : List Line := goLinesAux s.data []

-- The accumulation buffer contents produced by appending each line plus a
-- newline, starting from b.
def appendLines (b : Line) (ls : List Line) : Line :=
  ls.foldl (fun a l => a ++ l ++ ['\n']) b

-- line is a directive line whose trimmed command text is cmd.
def isDirLine (line : Line) (cmd : Line) : Bool :=
  sqlCmdMarker.isPrefixOf line && (trimL (line.drop sqlCmdMarker.length) == cmd)

def isNoTxLine (line : Line) : Bool := isDirLine line noTxCmd

-- ===== Migration executor (runSQLMigration, migration_sql.go) =====

-- A value bound to a placeholder of a parameterized statement.
inductive Arg where
  | int : Int → Arg
  | bool : Bool → Arg
  deriving DecidableEq

-- One Exec call: the SQL text and its bound parameters.
structure Query where
  sql : Line
  args : List Arg
  deriving DecidableEq

-- An abstract database connection: exec maps a persistent state and a query
-- to an error or a new state; commitErr models whether tx.Commit() fails from
-- a given would-be-committed state.  A transaction works on a private copy of
-- the state: rollback discards the copy, commit installs it.
structure DBConn (σ ε : Type) where
  exec : σ → Query → Except ε σ
  commitErr : σ → Option ε

def plainQuery (sql : Line) : Query := { sql := sql, args := [] }

def insertVersionQuery (ins : Line) (v : Int) (direction : Bool) : Query :=
  { sql := ins, args := [Arg.int v, Arg.bool direction] }

-- The statement loop inside a transaction: first error aborts, the state
-- accumulated so far is only a transaction-local copy.
def execAll {σ ε : Type} (M : DBConn σ ε) : σ → List Query → Except ε σ
  | s, [] => Except.ok s
  | s, q :: qs =>
    match M.exec s q with
    | Except.error e => Except.error e
    | Except.ok s' => execAll M s' qs

-- The statement loop without a transaction: each successful exec is
-- immediately persistent, and the first error returns with the state reached
-- so far still applied.
def execAllDirect {σ ε : Type} (M : DBConn σ ε) : σ → List Query → Option ε × σ
  | s, [] => (none, s)
  | s, q :: qs =>
    match M.exec s q with
    | Except.error e => (some e, s)
    | Except.ok s' => execAllDirect M s' qs

-- runSQLMigration (migration_sql.go).  File opening is I/O outside the model:
-- the scanned lines are passed directly.  ins stands for
-- GetDialect().insertVersionSQL().  The result is none when getSQLStatements
-- dies on a script without annotations (log.Fatalf), otherwise
-- some (returned error or nil, resulting persistent database state).
-- db.Begin() failure is log.Fatal in the source and is not modelled.
def runSQLMigration {σ ε : Type} (M : DBConn σ ε) (ins : Line) (db : σ)
    (script : List Line) (v : Int) (direction : Bool) :
    Option (Option ε × σ) :=
  match getSQLStatements script direction with
  | none => none
  | some (statements, useTx) =>
    if useTx then
      match execAll M db (statements.map plainQuery) with
      | Except.error e => some (some e, db)
      | Except.ok s' =>
        match M.exec s' (insertVersionQuery ins v direction) with
        | Except.error e => some (some e, db)
        | Except.ok s'' =>
          match M.commitErr s'' with
          | some e => some (some e, db)
          | none => some (none, s'')
    else
      match execAllDirect M db (statements.map plainQuery) with
      | (some e, s1) => some (some e, s1)
      | (none, s1) =>
        match M.exec s1 (insertVersionQuery ins v direction) with
        | Except.error e => some (some e, s1)
        | Except.ok s2 => some (none, s2)

-- A concrete connection used to exercise the executor: the state is the list
-- of successfully executed queries, and exactly the statement whose SQL text
-- is failOn fails.
def traceConn (failOn : Line) : DBConn (List Query) String :=
  { exec := fun s q => if q.sql = failOn then Except.error "boom"
                       else Except.ok (s ++ [q]),
    commitErr := fun _ => none }

-- ===== Dialects (dialect.go) =====

-- fmt %q on the strings appearing in error messages (escaping of exotic
-- characters is not modelled; the inputs of interest are plain).
def goQuote (s : String) : String := "\"" ++ s ++ "\""

-- The net/url operations used by the dialects, kept abstract: parseRequestURI
-- may fail with an error message, a parsed URL exposes its Path, can have the
-- Path replaced, and renders back to a string.
structure URLLib (υ : Type) where
  parseRequestURI : String → Except String υ
  path : υ → String
  withPath : υ → String → υ
  render : υ → String

-- The two regexp rewrites used by the Postgres-family dialects:
-- `(dbname=)(.*?)( .*|$)` replaced by "dbname=postgres$3", and
-- `.*dbname=(.*?)( .*|$)` replaced by "$1".
structure RegexLib where
  replaceDbnameWithPostgres : String → String
  extractDbname : String → String

def postgresCreateVersionTableSQL : String :=
  "CREATE TABLE goose_db_version (\n            \tid serial NOT NULL,\n                version_id bigint NOT NULL,\n                is_applied boolean NOT NULL,\n                tstamp timestamp NULL default now(),\n                PRIMARY KEY(id)\n            );"

def postgresInsertVersionSQL : String :=
  "INSERT INTO goose_db_version (version_id, is_applied) VALUES ($1, $2);"

def postgresDbVersionQuerySQL : String :=
  "SELECT version_id, is_applied from goose_db_version ORDER BY id DESC"

def postgresConnectToServer {υ : Type} (L : URLLib υ) (R : RegexLib)
    (dbstring : String) : Except String (String × String) :=
  match L.parseRequestURI dbstring with
  | Except.error _ =>
    let connstring := R.replaceDbnameWithPostgres dbstring
    if connstring = dbstring then
      Except.error ("unsupported dbstring: " ++ goQuote dbstring)
    else Except.ok ("postgres", connstring)
  | Except.ok dbURL => Except.ok ("postgres", L.render (L.withPath dbURL "postgres"))

def postgresGetDBName {υ : Type} (L : URLLib υ) (R : RegexLib)
    (dbstring : String) : Except String String :=
  match L.parseRequestURI dbstring with
  | Except.error _ =>
    let dbName := R.extractDbname dbstring
    if dbName = dbstring then
      Except.error ("unsupported dbstring: " ++ goQuote dbstring)
    else Except.ok dbName
  | Except.ok dbURL => Except.ok ((L.path dbURL).replace "/" "")

def mysqlCreateVersionTableSQL : String :=
  "CREATE TABLE goose_db_version (\n                id serial NOT NULL,\n                version_id bigint NOT NULL,\n                is_applied boolean NOT NULL,\n                tstamp timestamp NULL default now(),\n                PRIMARY KEY(id)\n            );"

def mysqlInsertVersionSQL : String :=
  "INSERT INTO goose_db_version (version_id, is_applied) VALUES (?, ?);"

def mysqlDbVersionQuerySQL : String :=
  "SELECT version_id, is_applied from goose_db_version ORDER BY id DESC"

def mysqlConnectToServer {υ : Type} (_L : URLLib υ) (_dbstring : String) :
    Except String (String × String) :=
  Except.error "not implemented"

def mysqlGetDBName {υ : Type} (L : URLLib υ) (dbstring : String) :
    Except String String :=
  match L.parseRequestURI dbstring with
  | Except.error e => Except.error e
  | Except.ok dbURL => Except.ok ((L.path dbURL).replace "/" "")

def redshiftCreateVersionTableSQL : String :=
  "CREATE TABLE goose_db_version (\n            \tid integer NOT NULL identity(1, 1),\n                version_id bigint NOT NULL,\n                is_applied boolean NOT NULL,\n                tstamp timestamp NULL default sysdate,\n                PRIMARY KEY(id)\n            );"

def redshiftInsertVersionSQL : String :=
  "INSERT INTO goose_db_version (version_id, is_applied) VALUES ($1, $2);"

def redshiftDbVersionQuerySQL : String :=
  "SELECT version_id, is_applied from goose_db_version ORDER BY id DESC"

def redshiftConnectToServer {υ : Type} (L : URLLib υ) (R : RegexLib)
    (dbstring : String) : Except String (String × String) :=
  match L.parseRequestURI dbstring with
  | Except.error _ =>
    let connstring := R.replaceDbnameWithPostgres dbstring
    if connstring = dbstring then
      Except.error ("unsupported dbstring: " ++ goQuote dbstring)
    else Except.ok ("postgres", connstring)
  | Except.ok dbURL => Except.ok ("postgres", L.render (L.withPath dbURL "postgres"))

def redshiftGetDBName {υ : Type} (L : URLLib υ) (R : RegexLib)
    (dbstring : String) : Except String String :=
  match L.parseRequestURI dbstring with
  | Except.error _ =>
    let dbName := R.extractDbname dbstring
    if dbName = dbstring then
      Except.error ("unsupported dbstring: " ++ goQuote dbstring)
    else Except.ok dbName
  | Except.ok dbURL => Except.ok ((L.path dbURL).replace "/" "")

def tidbCreateVersionTableSQL : String :=
  "CREATE TABLE goose_db_version (\n                id BIGINT UNSIGNED NOT NULL AUTO_INCREMENT UNIQUE,\n                version_id bigint NOT NULL,\n                is_applied boolean NOT NULL,\n                tstamp timestamp NULL default now(),\n                PRIMARY KEY(id)\n            );"

def tidbInsertVersionSQL : String :=
  "INSERT INTO goose_db_version (version_id, is_applied) VALUES (?, ?);"

def tidbDbVersionQuerySQL : String :=
  "SELECT version_id, is_applied from goose_db_version ORDER BY id DESC"

def tidbConnectToServer {υ : Type} (_L : URLLib υ) (_dbstring : String) :
    Except String (String × String) :=
  Except.error "not implemented"

def tidbGetDBName {υ : Type} (L : URLLib υ) (dbstring : String) :
    Except String String :=
  match L.parseRequestURI dbstring with
  | Except.error e => Except.error e
  | Except.ok dbURL => Except.ok ((L.path dbURL).replace "/" "")

-- The SQLDialect interface: dbVersionQuery only runs its fixed query string,
-- which is what dbVersionQuerySQL records; connectToServer returns the driver
-- name and connection string handed to sql.Open.
structure SQLDialect where
  createVersionTableSQL : String
  insertVersionSQL : String
  dbVersionQuerySQL : String
  getDBName : String → Except String String
  connectToServer : String → Except String (String × String)

def PostgresDialect {υ : Type} (L : URLLib υ) (R : RegexLib) : SQLDialect :=
  { createVersionTableSQL := postgresCreateVersionTableSQL,
    insertVersionSQL := postgresInsertVersionSQL,
    dbVersionQuerySQL := postgresDbVersionQuerySQL,
    getDBName := postgresGetDBName L R,
    connectToServer := postgresConnectToServer L R }

def MySQLDialect {υ : Type} (L : URLLib υ) (_R : RegexLib) : SQLDialect :=
  { createVersionTableSQL := mysqlCreateVersionTableSQL,
    insertVersionSQL := mysqlInsertVersionSQL,
    dbVersionQuerySQL := mysqlDbVersionQuerySQL,
    getDBName := mysqlGetDBName L,
    connectToServer := mysqlConnectToServer L }

def RedshiftDialect {υ : Type} (L : URLLib υ) (R : RegexLib) : SQLDialect :=
  { createVersionTableSQL := redshiftCreateVersionTableSQL,
    insertVersionSQL := redshiftInsertVersionSQL,
    dbVersionQuerySQL := redshiftDbVersionQuerySQL,
    getDBName := redshiftGetDBName L R,
    connectToServer := redshiftConnectToServer L R }

def TiDBDialect {υ : Type} (L : URLLib υ) (_R : RegexLib) : SQLDialect :=
  { createVersionTableSQL := tidbCreateVersionTableSQL,
    insertVersionSQL := tidbInsertVersionSQL,
    dbVersionQuerySQL := tidbDbVersionQuerySQL,
    getDBName := tidbGetDBName L,
    connectToServer := tidbConnectToServer L }

-- Which dialect struct the process-wide `dialect` variable currently holds.
inductive DialectName where
  | postgres
  | mysql
  | redshift
  | tidb
  deriving DecidableEq

def dialectFor {υ : Type} (L : URLLib υ) (R : RegexLib) :
    DialectName → SQLDialect
  | DialectName.postgres => PostgresDialect L R
  | DialectName.mysql => MySQLDialect L R
  | DialectName.redshift => RedshiftDialect L R
  | DialectName.tidb => TiDBDialect L R

-- GetDialect reads the process-wide variable.
def getDialect {υ : Type} (L : URLLib υ) (R : RegexLib) (cur : DialectName) :
    SQLDialect :=
  dialectFor L R cur

-- SetDialect (dialect.go): the switch over the dialect name; an unknown name
-- returns an error and leaves the variable as it was.
def setDialect (d : String) (cur : DialectName) :
    Except String Unit × DialectName :=
  if d = "postgres" ∨ d = "pgx" then (Except.ok (), DialectName.postgres)
  else if d = "mysql" then (Except.ok (), DialectName.mysql)
  else if d = "redshift" then (Except.ok (), DialectName.redshift)
  else if d = "tidb" then (Except.ok (), DialectName.tidb)
  else (Except.error (goQuote d ++ ": unknown dialect"), cur)

-- CreateDB (create_db.go).  dbexec models db.Exec on the opened server
-- connection: it receives the (driver, connstring) pair and the SQL text and
-- returns an optional error, which CreateDB returns verbatim.
def CreateDB (dbexec : String × String → String → Option String)
    (d : SQLDialect) (dbstring : String) : Option String :=
  match d.getDBName dbstring with
  | Except.error e => some ("failed to get db name: " ++ e)
  | Except.ok dbName =>
    match d.connectToServer dbstring with
    | Except.error e => some ("failed to connect to the server: " ++ e)
    | Except.ok db => dbexec db ("CREATE DATABASE " ++ dbName)

-- DropDB (drop_db.go).
def DropDB (dbexec : String × String → String → Option String)
    (d : SQLDialect) (dbstring : String) : Option String :=
  match d.getDBName dbstring with
  | Except.error e => some ("failed to get db name: " ++ e)
  | Except.ok dbName =>
    match d.connectToServer dbstring with
    | Except.error e => some ("failed to connect to the server: " ++ e)
    | Except.ok db => dbexec db ("DROP DATABASE IF EXISTS " ++ dbName)

-- Concrete instantiations of the abstract URL/regex primitives, used only to
-- exercise theorems at specific inputs.
def unitURLLib : URLLib Unit :=
  { parseRequestURI := fun _ => Except.error "parse error",
    path := fun _ => "", withPath := fun u _ => u, render := fun _ => "" }

def idRegexLib : RegexLib :=
  { replaceDbnameWithPostgres := id, extractDbname := id }

-- ===== Lemmas about the word scan of endsWithSemicolon =====

theorem lastWordBefore_eq_takeWhile (ws : List Line) (prev : Line) :
    lastWordBefore ws prev
      = (ws.takeWhile (fun w => !commentMarker.isPrefixOf w)).getLastD prev := by
  induction ws generalizing prev with
  | nil => rfl
  | cons w ws ih =>
    unfold lastWordBefore
    by_cases h : commentMarker.isPrefixOf w = true
    · rw [if_pos h, List.takeWhile_cons, if_neg (by simp [h])]
      rfl
    · rw [if_neg h, ih, List.takeWhile_cons, if_pos (by simp [h]),
          List.getLastD_cons]

/-- C7: the statement-terminator test scans the line's whitespace-delimited
tokens left to right, stops at the first token starting with `--`, and holds
exactly when the last token seen before stopping ends with a semicolon; the
line `SELECT 1; -- comment` is recognized, and a line whose first token
starts with `--` is never recognized. -/
theorem endsWithSemicolon_spec (line : Line) :
    (endsWithSemicolon line
       = ((((scanWords line).takeWhile
             (fun w => !commentMarker.isPrefixOf w)).getLastD []).getLast?
           == some ';'))
    ∧ endsWithSemicolon ("SELECT 1; -- comment".data) = true
    ∧ (∀ w ws, scanWords line = w :: ws → commentMarker.isPrefixOf w = true →
         endsWithSemicolon line = false) := by
  refine ⟨?_, by decide, ?_⟩
  · unfold endsWithSemicolon
    rw [lastWordBefore_eq_takeWhile]
  · intro w ws hsw hw
    unfold endsWithSemicolon
    rw [lastWordBefore_eq_takeWhile, hsw]
    simp [List.takeWhile_cons, hw]

/-- Witness for C7: the comment-only line `-- leading comment;` is not
semicolon-terminated even though its last token ends with one. -/
theorem endsWithSemicolon_spec_witness :
    endsWithSemicolon ("-- leading comment;".data) = false :=
  (endsWithSemicolon_spec ("-- leading comment;".data)).2.2
    ("--".data) (["leading".data, "comment;".data]) (by decide) (by decide)

-- A directive line always starts with the word "--", so it can never test as
-- semicolon-terminated.
theorem endsWithSemicolon_marker (line : Line)
    (h : sqlCmdMarker.isPrefixOf line = true) : endsWithSemicolon line = false := by
  obtain ⟨r, rfl⟩ := List.isPrefixOf_iff_prefix.mp h
  rfl

-- ===== Lemmas about applyCmd / emitStage / processLine =====

theorem applyCmd_tx_noTx (direction : Bool) (s : SplitState) (cmd : Line)
    (h : cmd = noTxCmd) : (applyCmd direction s cmd).tx = false := by
  subst h; rfl

theorem applyCmd_tx_other (direction : Bool) (s : SplitState) (cmd : Line)
    (h : cmd ≠ noTxCmd) : (applyCmd direction s cmd).tx = s.tx := by
  unfold applyCmd
  split_ifs <;> simp_all

theorem applyCmd_stmts (direction : Bool) (s : SplitState) (cmd : Line) :
    (applyCmd direction s cmd).stmts = s.stmts := by
  unfold applyCmd
  split_ifs <;> rfl

theorem applyCmd_buf (direction : Bool) (s : SplitState) (cmd : Line) :
    (applyCmd direction s cmd).buf = s.buf := by
  unfold applyCmd
  split_ifs <;> rfl

theorem applyCmd_active_up (direction : Bool) (s : SplitState) (cmd : Line)
    (h : cmd = upCmd) : (applyCmd direction s cmd).directionIsActive = direction := by
  subst h; rfl

theorem applyCmd_active_down (direction : Bool) (s : SplitState) (cmd : Line)
    (h : cmd = downCmd) : (applyCmd direction s cmd).directionIsActive = !direction := by
  subst h; rfl

theorem applyCmd_active_other (direction : Bool) (s : SplitState) (cmd : Line)
    (h1 : cmd ≠ upCmd) (h2 : cmd ≠ downCmd) :
    (applyCmd direction s cmd).directionIsActive = s.directionIsActive := by
  unfold applyCmd
  split_ifs <;> simp_all

theorem applyCmd_sb_active (direction : Bool) (s : SplitState) (cmd : Line)
    (h : cmd = stmtBeginCmd) (ha : s.directionIsActive = true) :
    applyCmd direction s cmd = { s with ignoreSemicolons := true } := by
  subst h
  unfold applyCmd
  rw [if_neg (by decide), if_neg (by decide), if_pos rfl, if_pos ha]

theorem applyCmd_se_active (direction : Bool) (s : SplitState) (cmd : Line)
    (h : cmd = stmtEndCmd) (ha : s.directionIsActive = true) :
    applyCmd direction s cmd
      = { s with statementEnded := s.ignoreSemicolons, ignoreSemicolons := false } := by
  subst h
  unfold applyCmd
  rw [if_neg (by decide), if_neg (by decide), if_neg (by decide), if_pos rfl, if_pos ha]

theorem applyCmd_se_inactive (direction : Bool) (s : SplitState) (cmd : Line)
    (h : cmd = stmtEndCmd) (ha : s.directionIsActive = false) :
    applyCmd direction s cmd = s := by
  subst h
  unfold applyCmd
  rw [if_neg (by decide), if_neg (by decide), if_neg (by decide), if_pos rfl,
      if_neg (by simp [ha])]

theorem emitStage_inactive (s : SplitState) (line : Line)
    (h : s.directionIsActive = false) : emitStage s line = s := by
  unfold emitStage
  rw [h]
  rfl

theorem emitStage_keep (s : SplitState) (line : Line)
    (h : s.directionIsActive = true)
    (hc : ((!s.ignoreSemicolons && endsWithSemicolon line) || s.statementEnded) = false) :
    emitStage s line = { s with buf := s.buf ++ line ++ ['\n'] } := by
  unfold emitStage
  rw [h, hc]
  rfl

theorem emitStage_emit (s : SplitState) (line : Line)
    (h : s.directionIsActive = true)
    (hc : ((!s.ignoreSemicolons && endsWithSemicolon line) || s.statementEnded) = true) :
    emitStage s line
      = { s with statementEnded := false,
                 stmts := s.stmts ++ [s.buf ++ line ++ ['\n']], buf := [] } := by
  unfold emitStage
  rw [h, hc]
  rfl

theorem emitStage_tx (s : SplitState) (line : Line) :
    (emitStage s line).tx = s.tx := by
  unfold emitStage
  split_ifs <;> rfl

theorem processLine_tx (direction : Bool) (s : SplitState) (line : Line) :
    (processLine direction s line).tx
      = if isNoTxLine line = true then false else s.tx := by
  unfold processLine applyDirectives
  rw [emitStage_tx]
  by_cases hp : sqlCmdMarker.isPrefixOf line = true
  · rw [if_pos hp]
    by_cases hc : trimL (line.drop sqlCmdMarker.length) = noTxCmd
    · rw [applyCmd_tx_noTx direction s _ hc,
          if_pos (by unfold isNoTxLine isDirLine; simp [hp, hc])]
    · rw [applyCmd_tx_other direction s _ hc,
          if_neg (by unfold isNoTxLine isDirLine; simp [hp, hc])]
  · rw [if_neg hp, if_neg (by unfold isNoTxLine isDirLine; simp [hp])]

theorem processLines_tx (direction : Bool) (ls : List Line) : ∀ s : SplitState,
    ((processLines direction s ls).tx = false
       ↔ (s.tx = false ∨ ∃ l ∈ ls, isNoTxLine l = true)) := by
  induction ls with
  | nil => intro s; simp [processLines]
  | cons l ls ih =>
    intro s
    unfold processLines at *
    rw [List.foldl_cons, ih]
    by_cases hl : isNoTxLine l = true
    · simp [processLine_tx, hl, List.exists_mem_cons_iff]
    · simp [processLine_tx, hl, List.exists_mem_cons_iff, or_assoc]

/-- C4: the splitter reports useTransaction=false exactly when some line of
the script is a `NO TRANSACTION` directive, in whatever direction section it
appears; otherwise the flag stays true. -/
theorem getSQLStatements_noTransaction (script : List Line) (direction : Bool)
    (ss : List Line) (tx : Bool)
    (h : getSQLStatements script direction = some (ss, tx)) :
    tx = false ↔ ∃ l ∈ script, isNoTxLine l = true := by
  simp only [getSQLStatements] at h
  split_ifs at h with hcond
  simp only [Option.some.injEq, Prod.mk.injEq] at h
  obtain ⟨-, htx⟩ := h
  subst htx
  rw [processLines_tx]
  simp [initState]

/-- Witness for C4: a script whose Up section carries the NO TRANSACTION
directive indeed contains such a line. -/
theorem getSQLStatements_noTransaction_witness :
    ∃ l ∈ goLines "-- +goose Up\n-- +goose NO TRANSACTION\nSELECT 1;\n",
      isNoTxLine l = true :=
  (getSQLStatements_noTransaction
      (goLines "-- +goose Up\n-- +goose NO TRANSACTION\nSELECT 1;\n") true
      (["-- +goose Up\n-- +goose NO TRANSACTION\nSELECT 1;\n".data]) false
      (by decide)).mp rfl

/-- C2 counterexample: splitting the worked example with Direction=Up does
not yield the statement list claimed by the spec, because the active
direction's directive line is itself appended to the statement text. -/
theorem getSQLStatements_example_counterexample :
    getSQLStatements
        (goLines "-- +goose Up\nCREATE TABLE t (id int);\n-- +goose Down\nDROP TABLE t;\n")
        true
      ≠ some (["CREATE TABLE t (id int);\n".data], true) := by
  decide

/-- C2 amended: directive lines processed while their section is active are
appended to the statement text (they are SQL comments); the worked example
yields `["-- +goose Up\nCREATE TABLE t (id int);\n"]` with useTransaction=true
for Up and `["-- +goose Down\nDROP TABLE t;\n"]` for Down. -/
theorem getSQLStatements_example :
    getSQLStatements
        (goLines "-- +goose Up\nCREATE TABLE t (id int);\n-- +goose Down\nDROP TABLE t;\n")
        true
      = some (["-- +goose Up\nCREATE TABLE t (id int);\n".data], true)
    ∧ getSQLStatements
        (goLines "-- +goose Up\nCREATE TABLE t (id int);\n-- +goose Down\nDROP TABLE t;\n")
        false
      = some (["-- +goose Down\nDROP TABLE t;\n".data], true) :=
  ⟨by decide, by decide⟩

/-- C8 counterexample: the Redshift and TiDB dialects are not behaviorally
identical to Postgres and MySQL on every method, since createVersionTableSQL
differs in both pairs. -/
theorem createVersionTableSQL_differs :
    redshiftCreateVersionTableSQL ≠ postgresCreateVersionTableSQL
    ∧ tidbCreateVersionTableSQL ≠ mysqlCreateVersionTableSQL :=
  ⟨by decide, by decide⟩

/-- C8 amended: Redshift agrees with Postgres, and TiDB with MySQL, on
insertVersionSQL, the dbVersionQuery query string, getDBName and
connectToServer for every input; only createVersionTableSQL differs. -/
theorem alias_dialects_agree_except_create :
    (∀ (υ : Type) (L : URLLib υ) (R : RegexLib) (dbstring : String),
        redshiftGetDBName L R dbstring = postgresGetDBName L R dbstring
        ∧ redshiftConnectToServer L R dbstring = postgresConnectToServer L R dbstring
        ∧ tidbGetDBName L dbstring = mysqlGetDBName L dbstring
        ∧ tidbConnectToServer L dbstring = mysqlConnectToServer L dbstring)
    ∧ redshiftInsertVersionSQL = postgresInsertVersionSQL
    ∧ tidbInsertVersionSQL = mysqlInsertVersionSQL
    ∧ redshiftDbVersionQuerySQL = postgresDbVersionQuerySQL
    ∧ tidbDbVersionQuerySQL = mysqlDbVersionQuerySQL
    ∧ redshiftCreateVersionTableSQL ≠ postgresCreateVersionTableSQL
    ∧ tidbCreateVersionTableSQL ≠ mysqlCreateVersionTableSQL :=
  ⟨fun _ _ _ _ => ⟨rfl, rfl, rfl, rfl⟩, rfl, rfl, rfl, rfl, by decide, by decide⟩

/-- C9: SetDialect on a name outside the five known ones returns the unknown
dialect error and leaves the process-wide dialect unchanged, so GetDialect
afterwards returns the same dialect as before. -/
theorem setDialect_unknown (name : String) (cur : DialectName)
    (h1 : name ≠ "postgres") (h2 : name ≠ "pgx") (h3 : name ≠ "mysql")
    (h4 : name ≠ "redshift") (h5 : name ≠ "tidb") :
    setDialect name cur
        = (Except.error (goQuote name ++ ": unknown dialect"), cur)
    ∧ (∀ (υ : Type) (L : URLLib υ) (R : RegexLib),
        getDialect L R (setDialect name cur).2 = getDialect L R cur) := by
  have hs : setDialect name cur
      = (Except.error (goQuote name ++ ": unknown dialect"), cur) := by
    unfold setDialect
    rw [if_neg (by simp [h1, h2]), if_neg h3, if_neg h4, if_neg h5]
  exact ⟨hs, fun υ L R => by rw [hs]⟩

/-- Witness for C9: the unsupported name sqlite3 fails and keeps the current
Postgres dialect. -/
theorem setDialect_unknown_witness :
    setDialect "sqlite3" DialectName.postgres
      = (Except.error (goQuote "sqlite3" ++ ": unknown dialect"),
         DialectName.postgres) :=
  (setDialect_unknown "sqlite3" DialectName.postgres (by decide) (by decide)
      (by decide) (by decide) (by decide)).1

/-- C10: connectToServer on the MySQL and TiDB dialects always fails with
"not implemented", and consequently CreateDB and DropDB fail for every
input dbstring under those dialects. -/
theorem mysql_tidb_admin_fail (υ : Type) (L : URLLib υ) (R : RegexLib)
    (dbexec : String × String → String → Option String) (dbstring : String) :
    (dialectFor L R DialectName.mysql).connectToServer dbstring
        = Except.error "not implemented"
    ∧ (dialectFor L R DialectName.tidb).connectToServer dbstring
        = Except.error "not implemented"
    ∧ (CreateDB dbexec (dialectFor L R DialectName.mysql) dbstring).isSome = true
    ∧ (DropDB dbexec (dialectFor L R DialectName.mysql) dbstring).isSome = true
    ∧ (CreateDB dbexec (dialectFor L R DialectName.tidb) dbstring).isSome = true
    ∧ (DropDB dbexec (dialectFor L R DialectName.tidb) dbstring).isSome = true := by
  refine ⟨rfl, rfl, ?_, ?_, ?_, ?_⟩ <;>
  · simp only [CreateDB, DropDB, dialectFor, MySQLDialect, TiDBDialect,
      mysqlGetDBName, tidbGetDBName, mysqlConnectToServer, tidbConnectToServer]
    cases L.parseRequestURI dbstring <;> simp

/-- Witness for C10 at a concrete library instantiation and input. -/
theorem mysql_tidb_admin_fail_witness :
    (CreateDB (fun _ _ => none) (dialectFor unitURLLib idRegexLib DialectName.mysql)
        "db").isSome = true :=
  (mysql_tidb_admin_fail Unit unitURLLib idRegexLib (fun _ _ => none) "db").2.2.1

-- ===== Lemmas for direction scoping (C5) =====

theorem applyDirectives_notDirective (direction : Bool) (s : SplitState)
    (line : Line) (hp : sqlCmdMarker.isPrefixOf line = false) :
    applyDirectives direction s line = s := by
  unfold applyDirectives
  rw [if_neg (show ¬ (sqlCmdMarker.isPrefixOf line = true) by simp [hp])]

theorem processLine_notDirective_inactive (direction : Bool) (s : SplitState)
    (line : Line) (hp : sqlCmdMarker.isPrefixOf line = false)
    (h : s.directionIsActive = false) :
    processLine direction s line = s := by
  unfold processLine
  rw [applyDirectives_notDirective direction s line hp, emitStage_inactive s line h]

theorem processLine_plain (direction : Bool) (s : SplitState) (line : Line)
    (hp : sqlCmdMarker.isPrefixOf line = false) (ha : s.directionIsActive = true) :
    processLine direction s line
      = if (!s.ignoreSemicolons && endsWithSemicolon line) || s.statementEnded then
          { s with statementEnded := false,
                   stmts := s.stmts ++ [s.buf ++ line ++ ['\n']], buf := [] }
        else { s with buf := s.buf ++ line ++ ['\n'] } := by
  unfold processLine
  rw [applyDirectives_notDirective direction s line hp]
  unfold emitStage
  rw [ha]
  rfl

theorem isDirLine_parts (line cmd : Line) (h : isDirLine line cmd = true) :
    sqlCmdMarker.isPrefixOf line = true
    ∧ trimL (line.drop sqlCmdMarker.length) = cmd := by
  unfold isDirLine at h
  simpa [Bool.and_eq_true, beq_iff_eq] using h

theorem processLine_deactivating (direction : Bool) (s : SplitState) (line : Line)
    (hact : (applyDirectives direction s line).directionIsActive = false) :
    (processLine direction s line).directionIsActive = false
    ∧ (processLine direction s line).stmts = (applyDirectives direction s line).stmts
    ∧ (processLine direction s line).buf = (applyDirectives direction s line).buf := by
  unfold processLine
  rw [emitStage_inactive _ line hact]
  exact ⟨hact, rfl, rfl⟩

theorem processLine_inactive_preserve (direction : Bool) (s : SplitState) (line : Line)
    (h : s.directionIsActive = false)
    (hline : isDirLine line (if direction then upCmd else downCmd) = false) :
    (processLine direction s line).directionIsActive = false
    ∧ (processLine direction s line).stmts = s.stmts
    ∧ (processLine direction s line).buf = s.buf := by
  by_cases hp : sqlCmdMarker.isPrefixOf line = true
  · have hcmd : trimL (line.drop sqlCmdMarker.length) ≠ (if direction then upCmd else downCmd) := by
      intro hc
      unfold isDirLine at hline
      rw [hp, hc] at hline
      simp at hline
    have hact : (applyDirectives direction s line).directionIsActive = false := by
      unfold applyDirectives
      rw [if_pos hp]
      cases direction with
      | false =>
        by_cases hu : trimL (line.drop sqlCmdMarker.length) = upCmd
        · rw [applyCmd_active_up false s _ hu]
        · by_cases hd : trimL (line.drop sqlCmdMarker.length) = downCmd
          · exact absurd hd hcmd
          · rw [applyCmd_active_other false s _ hu hd]
            exact h
      | true =>
        by_cases hu : trimL (line.drop sqlCmdMarker.length) = upCmd
        · exact absurd hu hcmd
        · by_cases hd : trimL (line.drop sqlCmdMarker.length) = downCmd
          · rw [applyCmd_active_down true s _ hd]
            decide
          · rw [applyCmd_active_other true s _ hu hd]
            exact h
    obtain ⟨p1, p2, p3⟩ := processLine_deactivating direction s line hact
    refine ⟨p1, ?_, ?_⟩
    · rw [p2]
      unfold applyDirectives
      rw [if_pos hp, applyCmd_stmts]
    · rw [p3]
      unfold applyDirectives
      rw [if_pos hp, applyCmd_buf]
  · have hp' : sqlCmdMarker.isPrefixOf line = false := by
      revert hp
      cases sqlCmdMarker.isPrefixOf line <;> simp
    rw [processLine_notDirective_inactive direction s line hp' h]
    exact ⟨h, rfl, rfl⟩

theorem processLines_inactive (direction : Bool) (mids : List Line) : ∀ s : SplitState,
    s.directionIsActive = false →
    (∀ l ∈ mids, isDirLine l (if direction then upCmd else downCmd) = false) →
    (processLines direction s mids).stmts = s.stmts
    ∧ (processLines direction s mids).buf = s.buf
    ∧ (processLines direction s mids).directionIsActive = false := by
  induction mids with
  | nil => intro s h _; exact ⟨rfl, rfl, h⟩
  | cons l ls ih =>
    intro s h hm
    obtain ⟨k1, k2, k3⟩ := processLine_inactive_preserve direction s l h (hm l (by simp))
    unfold processLines at *
    rw [List.foldl_cons]
    obtain ⟨j1, j2, j3⟩ := ih (processLine direction s l) k1 (fun x hx => hm x (by simp [hx]))
    exact ⟨j1.trans k2, j2.trans k3, j3⟩

/-- C5: splitting for one direction emits no text from lines in the opposite
direction's section: a direction directive for the other side deactivates the
section and is not buffered, any run of lines without the requested
direction's directive leaves the buffer and statement list untouched while
inactive, and a non-directive line is appended (verbatim plus newline) to the
buffer exactly when the requested direction's section is active. -/
theorem splitter_direction_scoping :
    (∀ (direction : Bool) (s : SplitState) (line : Line),
        sqlCmdMarker.isPrefixOf line = false →
        ((s.directionIsActive = false → processLine direction s line = s)
          ∧ (s.directionIsActive = true →
              ((processLine direction s line).buf = s.buf ++ line ++ ['\n']
                 ∧ (processLine direction s line).stmts = s.stmts)
              ∨ ((processLine direction s line).buf = []
                 ∧ (processLine direction s line).stmts
                     = s.stmts ++ [s.buf ++ line ++ ['\n']]))))
    ∧ (∀ (s : SplitState) (line : Line), isDirLine line downCmd = true →
        (processLine true s line).directionIsActive = false
        ∧ (processLine true s line).stmts = s.stmts
        ∧ (processLine true s line).buf = s.buf)
    ∧ (∀ (s : SplitState) (line : Line), isDirLine line upCmd = true →
        (processLine false s line).directionIsActive = false
        ∧ (processLine false s line).stmts = s.stmts
        ∧ (processLine false s line).buf = s.buf)
    ∧ (∀ (direction : Bool) (s : SplitState) (mids : List Line),
        s.directionIsActive = false →
        (∀ l ∈ mids, isDirLine l (if direction then upCmd else downCmd) = false) →
        (processLines direction s mids).stmts = s.stmts
        ∧ (processLines direction s mids).buf = s.buf) := by
  refine ⟨?_, ?_, ?_, ?_⟩
  · intro direction s line hp
    constructor
    · intro h
      exact processLine_notDirective_inactive direction s line hp h
    · intro ha
      rw [processLine_plain direction s line hp ha]
      by_cases hc : ((!s.ignoreSemicolons && endsWithSemicolon line) || s.statementEnded) = true
      · right
        rw [if_pos hc]
        exact ⟨rfl, rfl⟩
      · left
        rw [if_neg hc]
        exact ⟨rfl, rfl⟩
  · intro s line hb
    obtain ⟨hp, hcmd⟩ := isDirLine_parts line downCmd hb
    have hact : (applyDirectives true s line).directionIsActive = false := by
      unfold applyDirectives
      rw [if_pos hp, applyCmd_active_down true s _ hcmd]
      decide
    obtain ⟨p1, p2, p3⟩ := processLine_deactivating true s line hact
    refine ⟨p1, ?_, ?_⟩
    · rw [p2]
      unfold applyDirectives
      rw [if_pos hp, applyCmd_stmts]
    · rw [p3]
      unfold applyDirectives
      rw [if_pos hp, applyCmd_buf]
  · intro s line hb
    obtain ⟨hp, hcmd⟩ := isDirLine_parts line upCmd hb
    have hact : (applyDirectives false s line).directionIsActive = false := by
      unfold applyDirectives
      rw [if_pos hp, applyCmd_active_up false s _ hcmd]
    obtain ⟨p1, p2, p3⟩ := processLine_deactivating false s line hact
    refine ⟨p1, ?_, ?_⟩
    · rw [p2]
      unfold applyDirectives
      rw [if_pos hp, applyCmd_stmts]
    · rw [p3]
      unfold applyDirectives
      rw [if_pos hp, applyCmd_buf]
  · intro direction s mids h hm
    obtain ⟨j1, j2, -⟩ := processLines_inactive direction mids s h hm
    exact ⟨j1, j2⟩

/-- Witness for C5: a plain SQL line is discarded while no section is active. -/
theorem splitter_direction_scoping_witness :
    processLine true initState ("SELECT 1;".data) = initState :=
  ((splitter_direction_scoping.1) true initState ("SELECT 1;".data) (by decide)).1 rfl

-- ===== Lemmas for explicit statement blocks (C6) =====

theorem processLine_plain_inBlock (direction : Bool) (s : SplitState) (line : Line)
    (hp : sqlCmdMarker.isPrefixOf line = false) (ha : s.directionIsActive = true)
    (hi : s.ignoreSemicolons = true) (he : s.statementEnded = false) :
    processLine direction s line = { s with buf := s.buf ++ line ++ ['\n'] } := by
  have hc : ((!s.ignoreSemicolons && endsWithSemicolon line) || s.statementEnded) = false := by
    rw [hi, he]
    simp
  rw [processLine_plain direction s line hp ha, hc]
  rfl

theorem processLines_plainBlock (direction : Bool) (mid : List Line) : ∀ s : SplitState,
    (∀ l ∈ mid, sqlCmdMarker.isPrefixOf l = false) →
    s.directionIsActive = true → s.ignoreSemicolons = true → s.statementEnded = false →
    processLines direction s mid = { s with buf := appendLines s.buf mid } := by
  induction mid with
  | nil => intro s _ _ _ _; rfl
  | cons l ls ih =>
    intro s hm ha hi he
    unfold processLines at *
    rw [List.foldl_cons, processLine_plain_inBlock direction s l (hm l (by simp)) ha hi he]
    rw [ih { s with buf := s.buf ++ l ++ ['\n'] }
          (fun x hx => hm x (by simp [hx])) ha hi he]
    rfl

theorem processLine_beginBlock (direction : Bool) (s : SplitState) (bl : Line)
    (hb : isDirLine bl stmtBeginCmd = true) (ha : s.directionIsActive = true)
    (he : s.statementEnded = false) :
    processLine direction s bl
      = { s with ignoreSemicolons := true, buf := s.buf ++ bl ++ ['\n'] } := by
  obtain ⟨hp, hcmd⟩ := isDirLine_parts bl stmtBeginCmd hb
  unfold processLine applyDirectives
  rw [if_pos hp, applyCmd_sb_active direction s _ hcmd ha]
  rw [emitStage_keep { s with ignoreSemicolons := true } bl ha (by simp [he])]

theorem processLine_endBlock_open (direction : Bool) (s : SplitState) (el : Line)
    (he : isDirLine el stmtEndCmd = true) (ha : s.directionIsActive = true)
    (hi : s.ignoreSemicolons = true) :
    processLine direction s el
      = { s with ignoreSemicolons := false, statementEnded := false,
                 stmts := s.stmts ++ [s.buf ++ el ++ ['\n']], buf := [] } := by
  obtain ⟨hp, hcmd⟩ := isDirLine_parts el stmtEndCmd he
  unfold processLine applyDirectives
  rw [if_pos hp, applyCmd_se_active direction s _ hcmd ha]
  rw [emitStage_emit
        { s with statementEnded := s.ignoreSemicolons, ignoreSemicolons := false }
        el ha (by simp [hi])]

theorem processLine_endBlock_closed (direction : Bool) (s : SplitState) (el : Line)
    (he : isDirLine el stmtEndCmd = true) (hi : s.ignoreSemicolons = false)
    (hse : s.statementEnded = false) :
    (processLine direction s el).stmts = s.stmts := by
  obtain ⟨hp, hcmd⟩ := isDirLine_parts el stmtEndCmd he
  cases ha : s.directionIsActive with
  | false =>
    unfold processLine applyDirectives
    rw [if_pos hp, applyCmd_se_inactive direction s _ hcmd ha,
        emitStage_inactive s el ha]
  | true =>
    unfold processLine applyDirectives
    rw [if_pos hp, applyCmd_se_active direction s _ hcmd ha]
    rw [emitStage_keep
          { s with statementEnded := s.ignoreSemicolons, ignoreSemicolons := false }
          el ha (by simp [hi, hse, endsWithSemicolon_marker el hp])]

theorem appendLines_block (b : Line) (bl el : Line) (mid : List Line) :
    appendLines b (bl :: (mid ++ [el]))
      = appendLines (b ++ bl ++ ['\n']) mid ++ el ++ ['\n'] := by
  unfold appendLines
  rw [List.foldl_cons, List.foldl_append]
  simp

/-- C6: inside an active section, a `StatementBegin` directive followed by
arbitrary non-directive lines (semicolons included) and a `StatementEnd`
directive flushes the whole block as exactly one statement, and a
`StatementEnd` seen without an open `StatementBegin` does not flush the
buffer. -/
theorem statement_block_single (direction : Bool) (s : SplitState)
    (bl el : Line) (mid : List Line)
    (hA : s.directionIsActive = true) (hI : s.ignoreSemicolons = false)
    (hE : s.statementEnded = false)
    (hb : isDirLine bl stmtBeginCmd = true) (he : isDirLine el stmtEndCmd = true)
    (hm : ∀ l ∈ mid, sqlCmdMarker.isPrefixOf l = false) :
    (processLines direction s (bl :: (mid ++ [el]))).stmts
        = s.stmts ++ [appendLines s.buf (bl :: (mid ++ [el]))]
    ∧ (processLines direction s (bl :: (mid ++ [el]))).buf = []
    ∧ (∀ (s₂ : SplitState) (el₂ : Line), s₂.ignoreSemicolons = false →
        s₂.statementEnded = false → isDirLine el₂ stmtEndCmd = true →
        (processLine direction s₂ el₂).stmts = s₂.stmts) := by
  have main : processLines direction s (bl :: (mid ++ [el]))
      = { s with ignoreSemicolons := false, statementEnded := false,
                 stmts := (s.stmts ++ [appendLines (s.buf ++ bl ++ ['\n']) mid ++ el ++ ['\n']]),
                 buf := [] } := by
    unfold processLines
    rw [List.foldl_cons]
    rw [processLine_beginBlock direction s bl hb hA hE]
    rw [List.foldl_append]
    have h1 := processLines_plainBlock direction mid
        { s with ignoreSemicolons := true, buf := s.buf ++ bl ++ ['\n'] } hm hA rfl hE
    unfold processLines at h1
    rw [h1]
    simp only [List.foldl_cons, List.foldl_nil]
    rw [processLine_endBlock_open direction
          { s with ignoreSemicolons := true,
                   buf := appendLines (s.buf ++ bl ++ ['\n']) mid }
          el he hA rfl]
  refine ⟨?_, ?_, ?_⟩
  · rw [main, appendLines_block]
  · rw [main]
  · intro s₂ el₂ h1 h2 h3
    exact processLine_endBlock_closed direction s₂ el₂ h3 h1 h2

/-- Witness for C6: a block with two embedded semicolon-terminated lines is
flushed as a single statement. -/
theorem statement_block_single_witness :
    (processLines true (SplitState.mk 1 0 false false true true [] [])
        (("-- +goose StatementBegin".data)
          :: (["SELECT 1;".data, "SELECT 2;".data]
                ++ ["-- +goose StatementEnd".data]))).stmts
      = [] ++ [appendLines []
          (("-- +goose StatementBegin".data)
            :: (["SELECT 1;".data, "SELECT 2;".data]
                  ++ ["-- +goose StatementEnd".data]))] :=
  (statement_block_single true (SplitState.mk 1 0 false false true true [] [])
      ("-- +goose StatementBegin".data) ("-- +goose StatementEnd".data)
      (["SELECT 1;".data, "SELECT 2;".data])
      rfl rfl rfl (by decide) (by decide) (by decide)).1

-- ===== Lemmas for the executor (C1, C3) =====

theorem execAll_append {σ ε : Type} (M : DBConn σ ε) (xs ys : List Query) :
    ∀ s : σ, execAll M s (xs ++ ys)
      = match execAll M s xs with
        | Except.error e => Except.error e
        | Except.ok s' => execAll M s' ys := by
  induction xs with
  | nil => intro s; rfl
  | cons q qs ih =>
    intro s
    rw [List.cons_append]
    simp only [execAll]
    cases h : M.exec s q with
    | error e => simp [h]
    | ok s' => simp [h, ih s']

theorem execAllDirect_append {σ ε : Type} (M : DBConn σ ε) (xs ys : List Query) :
    ∀ s : σ, execAllDirect M s (xs ++ ys)
      = match execAllDirect M s xs with
        | (some e, t) => (some e, t)
        | (none, t) => execAllDirect M t ys := by
  induction xs with
  | nil => intro s; rfl
  | cons q qs ih =>
    intro s
    rw [List.cons_append]
    simp only [execAllDirect]
    cases h : M.exec s q with
    | error e => simp [h]
    | ok s' => simp [h, ih s']

theorem runSQLMigration_tx_eq {σ ε : Type} (M : DBConn σ ε) (ins : Line) (db : σ)
    (script : List Line) (v : Int) (direction : Bool) (stmts : List Line)
    (hsplit : getSQLStatements script direction = some (stmts, true)) :
    runSQLMigration M ins db script v direction
      = (match execAll M db (stmts.map plainQuery) with
         | Except.error e => some (some e, db)
         | Except.ok s' =>
           match M.exec s' (insertVersionQuery ins v direction) with
           | Except.error e => some (some e, db)
           | Except.ok s'' =>
             match M.commitErr s'' with
             | some e => some (some e, db)
             | none => some (none, s'')) := by
  unfold runSQLMigration
  rw [hsplit]
  rfl

theorem runSQLMigration_notx_eq {σ ε : Type} (M : DBConn σ ε) (ins : Line) (db : σ)
    (script : List Line) (v : Int) (direction : Bool) (stmts : List Line)
    (hsplit : getSQLStatements script direction = some (stmts, false)) :
    runSQLMigration M ins db script v direction
      = (match execAllDirect M db (stmts.map plainQuery) with
         | (some e, s1) => some (some e, s1)
         | (none, s1) =>
           match M.exec s1 (insertVersionQuery ins v direction) with
           | Except.error e => some (some e, s1)
           | Except.ok s2 => some (none, s2)) := by
  unfold runSQLMigration
  rw [hsplit]
  rfl

/-- C1: for a script split with useTransaction=true, runSQLMigration executes
the statements in order inside one transaction: the first statement error
rolls back (the original database state is returned, the version-insert never
runs) and the underlying error is returned unmodified; when all statements
succeed, the version-insert runs with (version, direction) as its two
parameters inside the same transaction, and the commit outcome decides
between the committed state and a returned commit error with nothing
persisted. -/
theorem runSQLMigration_transactional {σ ε : Type} (M : DBConn σ ε) (ins : Line)
    (db : σ) (script : List Line) (v : Int) (direction : Bool) (stmts : List Line)
    (hsplit : getSQLStatements script direction = some (stmts, true)) :
    (∀ (pre : List Line) (q : Line) (post : List Line) (s1 : σ) (e : ε),
        stmts = pre ++ q :: post →
        execAll M db (pre.map plainQuery) = Except.ok s1 →
        M.exec s1 (plainQuery q) = Except.error e →
        runSQLMigration M ins db script v direction = some (some e, db))
    ∧ (∀ (s' : σ) (e : ε),
        execAll M db (stmts.map plainQuery) = Except.ok s' →
        M.exec s' (insertVersionQuery ins v direction) = Except.error e →
        runSQLMigration M ins db script v direction = some (some e, db))
    ∧ (∀ (s' s'' : σ),
        execAll M db (stmts.map plainQuery) = Except.ok s' →
        M.exec s' (insertVersionQuery ins v direction) = Except.ok s'' →
        runSQLMigration M ins db script v direction
          = some ((M.commitErr s'').elim ((none : Option ε), s'')
                    (fun e => (some e, db)))) := by
  have req := runSQLMigration_tx_eq M ins db script v direction stmts hsplit
  refine ⟨?_, ?_, ?_⟩
  · intro pre q post s1 e hdec h1 h2
    have hall : execAll M db (stmts.map plainQuery) = Except.error e := by
      subst hdec
      rw [List.map_append, List.map_cons, execAll_append M _ _ db, h1]
      simp [execAll, h2]
    rw [req, hall]
  · intro s' e h1 h2
    rw [req, h1]
    simp only [h2]
  · intro s' s'' h1 h2
    rw [req, h1]
    simp only [h2]
    cases hce : M.commitErr s'' <;> rfl

/-- Witness for C1: with a connection that fails on the second statement, the
transactional run returns the error and the untouched original state. -/
theorem runSQLMigration_transactional_witness :
    runSQLMigration (traceConn ("B;\n".data)) ("INSERT".data) ([] : List Query)
        (goLines "-- +goose Up\nA;\nB;\n") 3 true
      = some (some "boom", ([] : List Query)) :=
  (runSQLMigration_transactional (traceConn ("B;\n".data)) ("INSERT".data) []
      (goLines "-- +goose Up\nA;\nB;\n") 3 true
      ["-- +goose Up\nA;\n".data, "B;\n".data] (by decide)).1
    ["-- +goose Up\nA;\n".data] ("B;\n".data) []
    [plainQuery ("-- +goose Up\nA;\n".data)] "boom" rfl rfl rfl

/-- C3: for a script split with useTransaction=false, runSQLMigration executes
the statements directly with no wrapping transaction: the first statement
error returns immediately with the effects of the earlier statements still
applied and with neither the later statements nor the version-insert
executed; only when all statements succeed is the version-insert executed,
outside any transaction. -/
theorem runSQLMigration_noTransaction {σ ε : Type} (M : DBConn σ ε) (ins : Line)
    (db : σ) (script : List Line) (v : Int) (direction : Bool) (stmts : List Line)
    (hsplit : getSQLStatements script direction = some (stmts, false)) :
    (∀ (pre : List Line) (q : Line) (post : List Line) (s1 : σ) (e : ε),
        stmts = pre ++ q :: post →
        execAllDirect M db (pre.map plainQuery) = (none, s1) →
        M.exec s1 (plainQuery q) = Except.error e →
        runSQLMigration M ins db script v direction = some (some e, s1))
    ∧ (∀ (s' : σ) (e : ε),
        execAllDirect M db (stmts.map plainQuery) = (none, s') →
        M.exec s' (insertVersionQuery ins v direction) = Except.error e →
        runSQLMigration M ins db script v direction = some (some e, s'))
    ∧ (∀ (s' s'' : σ),
        execAllDirect M db (stmts.map plainQuery) = (none, s') →
        M.exec s' (insertVersionQuery ins v direction) = Except.ok s'' →
        runSQLMigration M ins db script v direction = some (none, s'')) := by
  have req := runSQLMigration_notx_eq M ins db script v direction stmts hsplit
  refine ⟨?_, ?_, ?_⟩
  · intro pre q post s1 e hdec h1 h2
    have hall : execAllDirect M db (stmts.map plainQuery) = (some e, s1) := by
      subst hdec
      rw [List.map_append, List.map_cons, execAllDirect_append M _ _ db, h1]
      simp [execAllDirect, h2]
    rw [req, hall]
  · intro s' e h1 h2
    rw [req, h1]
    simp only [h2]
  · intro s' s'' h1 h2
    rw [req, h1]
    simp only [h2]

/-- Witness for C3: under NO TRANSACTION, a failure on the second statement
leaves the first statement applied and stops before the rest. -/
theorem runSQLMigration_noTransaction_witness :
    runSQLMigration (traceConn ("B;\n".data)) ("INSERT".data) ([] : List Query)
        (goLines "-- +goose NO TRANSACTION\n-- +goose Up\nA;\nB;\nC;\n") 5 true
      = some (some "boom", [plainQuery ("-- +goose Up\nA;\n".data)]) :=
  (runSQLMigration_noTransaction (traceConn ("B;\n".data)) ("INSERT".data) []
      (goLines "-- +goose NO TRANSACTION\n-- +goose Up\nA;\nB;\nC;\n") 5 true
      ["-- +goose Up\nA;\n".data, "B;\n".data, "C;\n".data] (by decide)).1
    ["-- +goose Up\nA;\n".data] ("B;\n".data) ["C;\n".data]
    [plainQuery ("-- +goose Up\nA;\n".data)] "boom" rfl rfl rfl
